import Mathlib

/-!
Verification development for the powerdrill-flow-streamlit repository.

The definitions below are a shallow embedding of the repository's core:
the streaming response decoder of `ChatInterface._ask_question`
(src/components/chat_interface.py), the overview-retry loop of
`ChatInterface._load_dataset_overview`, the session reconciliation of
`ChatInterface.__init__` / `_create_new_session`, and the transport layer
`PowerdrillClient._make_request` / `wait_for_dataset_ready` / the dataset
and data-source operations (src/utils/api_client.py).

Python JSON values (`json.loads` results) are modelled by the inductive
`Json` type below; integers stand for JSON numbers (floats never occur in
the payloads the program handles and are not modelled: the model parser
rejects them).  Python string operations used by the source
(`startswith`, `strip`, `replace`, `split`, `in`) are modelled by
executable char-list functions.
-/

/-- A JSON value, as produced by Python's `json.loads`.  Numbers are
modelled as integers (no payload decoded by the program carries floats;
the model parser fails on a float, where Python would succeed). -/
inductive Json where
  | null
  | bool (b : Bool)
  | num (n : Int)
  | str (s : String)
  | arr (elems : List Json)
  | obj (fields : List (String × Json))
deriving Inhabited

/-- Dictionary lookup: `j[k]` / `k in j` on a Python dict.  `json.loads`
never yields duplicate keys (later duplicates overwrite), so first-match
lookup agrees with Python; non-dict values have no fields. -/
def Json.getField : Json → String → Option Json
  | .obj fs, k => (fs.find? (fun p => p.1 == k)).map (fun p => p.2)
  | _, _ => none

/-- Python `k in j` for a dict `j`. -/
def Json.hasField (j : Json) (k : String) : Bool := (j.getField k).isSome

/-- Python `j.get(k, default)`. -/
def Json.getD (j : Json) (k : String) (d : Json) : Json := (j.getField k).getD d

/-- Extract a JSON string. -/
def Json.asString : Json → Option String
  | .str s => some s
  | _ => none

/-- Python `j.get(k, d)` specialised to the string fields the decoder
reads (`name`).  The source passes the raw value to an f-string; only
string values (or a missing key) occur in the payloads handled below, so
a present non-string value also falls back to the default here. -/
def Json.getStrD (j : Json) (k : String) (d : String) : String :=
  match j.getField k with
  | some (.str s) => s
  | _ => d

/-- Python truthiness of a decoded JSON value. -/
def pyTruthy : Json → Bool
  | .null => false
  | .bool b => b
  | .num n => n != 0
  | .str s => s != ""
  | .arr xs => !xs.isEmpty
  | .obj fs => !fs.isEmpty

/-- Python truthiness of `session_state.get(key)` (absent key → `None`). -/
def pyTruthyOpt : Option Json → Bool
  | none => false
  | some j => pyTruthy j

/-- The list iterated by `for x in j.get(k, [])`.  The decoded payloads
always carry lists here; a non-list value (over which Python would
iterate characters or keys, contributing nothing that passes the
subsequent `dict`/`'delta' in` checks) yields the empty list. -/
def Json.getFieldList (j : Json) (k : String) : List Json :=
  match j.getField k with
  | some (.arr xs) => xs
  | _ => []

/- ### Python string operations (char-list models) -/

/-- Characters that cannot appear as Lean literals in this file. -/
def openBrace : Char := Char.ofNat 123

def closeBrace : Char := Char.ofNat 125

def quoteChar : Char := Char.ofNat 34

def backslashChar : Char := Char.ofNat 92

/-- JSON whitespace (also what Python `str.strip()` removes in the lines
the program sees). -/
def isWsChar (c : Char) : Bool :=
  c = ' ' || c = Char.ofNat 9 || c = Char.ofNat 10 || c = Char.ofNat 13

def startsWithL : List Char → List Char → Bool
  | _, [] => true
  | [], _ :: _ => false
  | c :: cs, p :: ps => p == c && startsWithL cs ps

/-- Python `s.startswith(p)`. -/
def pyStartsWith (s p : String) : Bool := startsWithL s.data p.data

/-- Python `s.strip()`. -/
def pyStrip (s : String) : String :=
  String.mk (((s.data.dropWhile isWsChar).reverse.dropWhile isWsChar).reverse)

/-- Python `s[n:]` (used to model `s.replace(p, '', 1)` when `s` is known
to start with `p`, so the first occurrence is at position 0). -/
def pyDrop (s : String) (n : Nat) : String := String.mk (s.data.drop n)

def replaceAllL (pat rep : List Char) : Nat → List Char → List Char
  | 0, s => s
  | fuel + 1, s =>
    match s with
    | [] => []
    | c :: cs =>
      if startsWithL s pat && !pat.isEmpty then
        rep ++ replaceAllL pat rep fuel (s.drop pat.length)
      else
        c :: replaceAllL pat rep fuel cs

/-- Python `s.replace(pat, rep)` (all occurrences, non-empty pattern). -/
def pyReplaceAll (s pat rep : String) : String :=
  String.mk (replaceAllL pat.data rep.data s.data.length s.data)

/-- `strip_url_params` from chat_interface.py:345-346:
`url.split('?')[0] if '?' in url else url`. -/
def strip_url_params (url : String) : String :=
  if url.data.contains '?' then String.mk (url.data.takeWhile (fun c => c != '?')) else url

/- ### A model of Python's `json.loads` -/

/-- Parse the body of a JSON string literal (after the opening quote),
returning the decoded characters and the rest of the input.  The escapes
used by the program's payloads are supported; `\uXXXX` is not (no claim
exercises it). -/
def parseStringChars : Nat → List Char → Option (List Char × List Char)
  | 0, _ => none
  | _, [] => none
  | fuel + 1, c :: cs =>
    if c = quoteChar then some ([], cs)
    else if c = backslashChar then
      match cs with
      | [] => none
      | e :: cs' =>
        let dec : Option Char :=
          if e = quoteChar then some quoteChar
          else if e = backslashChar then some backslashChar
          else if e = '/' then some '/'
          else if e = 'n' then some (Char.ofNat 10)
          else if e = 't' then some (Char.ofNat 9)
          else if e = 'r' then some (Char.ofNat 13)
          else if e = 'b' then some (Char.ofNat 8)
          else if e = 'f' then some (Char.ofNat 12)
          else none
        match dec with
        | some d => (parseStringChars fuel cs').map (fun r => (d :: r.1, r.2))
        | none => none
    else (parseStringChars fuel cs).map (fun r => (c :: r.1, r.2))

def digitsToNat (ds : List Char) : Nat :=
  ds.foldl (fun acc c => acc * 10 + (c.toNat - 48)) 0

/-- Parse a JSON number.  Only integers are modelled (see `Json`). -/
def parseNumber (cs : List Char) : Option (Json × List Char) :=
  let (neg, cs1) := match cs with
    | '-' :: r => (true, r)
    | _ => (false, cs)
  let ds := cs1.takeWhile (fun c => c.isDigit)
  let rest := cs1.dropWhile (fun c => c.isDigit)
  if ds.isEmpty then none
  else
    match rest with
    | '.' :: _ => none
    | 'e' :: _ => none
    | 'E' :: _ => none
    | _ => some (.num (if neg then -(digitsToNat ds : Int) else (digitsToNat ds : Int)), rest)

def skipWs (cs : List Char) : List Char := cs.dropWhile isWsChar

mutual

def parseValue : Nat → List Char → Option (Json × List Char)
  | 0, _ => none
  | fuel + 1, cs =>
    match skipWs cs with
    | [] => none
    | c :: cs' =>
      if c = quoteChar then
        match parseStringChars (fuel + 1) cs' with
        | some r => some (.str (String.mk r.1), r.2)
        | none => none
      else if c = openBrace then
        match skipWs cs' with
        | d :: rest =>
          if d = closeBrace then some (.obj [], rest)
          else
            match parseMembers fuel (d :: rest) with
            | some r => some (.obj r.1, r.2)
            | none => none
        | [] => none
      else if c = '[' then
        match skipWs cs' with
        | ']' :: rest => some (.arr [], rest)
        | cs'' =>
          match parseElems fuel cs'' with
          | some r => some (.arr r.1, r.2)
          | none => none
      else if c = 't' then
        match cs' with
        | 'r' :: 'u' :: 'e' :: rest => some (.bool true, rest)
        | _ => none
      else if c = 'f' then
        match cs' with
        | 'a' :: 'l' :: 's' :: 'e' :: rest => some (.bool false, rest)
        | _ => none
      else if c = 'n' then
        match cs' with
        | 'u' :: 'l' :: 'l' :: rest => some (.null, rest)
        | _ => none
      else parseNumber (c :: cs')

def parseElems : Nat → List Char → Option (List Json × List Char)
  | 0, _ => none
  | fuel + 1, cs =>
    match parseValue fuel cs with
    | none => none
    | some (j, rest) =>
      match skipWs rest with
      | ',' :: rest' =>
        match parseElems fuel rest' with
        | some r => some (j :: r.1, r.2)
        | none => none
      | ']' :: rest' => some ([j], rest')
      | _ => none

def parseMembers : Nat → List Char → Option (List (String × Json) × List Char)
  | 0, _ => none
  | fuel + 1, cs =>
    match skipWs cs with
    | c :: cs' =>
      if c = quoteChar then
        match parseStringChars fuel cs' with
        | none => none
        | some kr =>
          match skipWs kr.2 with
          | ':' :: rest' =>
            match parseValue fuel rest' with
            | none => none
            | some (v, rest'') =>
              match skipWs rest'' with
              | ',' :: rest3 =>
                match parseMembers fuel rest3 with
                | some r => some ((String.mk kr.1, v) :: r.1, r.2)
                | none => none
              | d :: rest3 =>
                if d = closeBrace then some ([(String.mk kr.1, v)], rest3) else none
              | [] => none
          | _ => none
      else none
    | [] => none

end

/-- Model of Python `json.loads`: parse one value, require only trailing
whitespace, fail otherwise (the failure is what the decoder's
`json.JSONDecodeError` handler sees). -/
def json_loads (s : String) : Option Json :=
  match parseValue (2 * s.data.length + 2) s.data with
  | some (j, rest) => if (skipWs rest).isEmpty then some j else none
  | none => none

/- ### The streaming response decoder (`ChatInterface._ask_question`, chat_interface.py:336-493) -/

/-- An image or table artifact collected from the stream
(`{'url': ..., 'name': ...}` entries of the `images`/`tables` lists). -/
structure Artifact where
  url : String
  name : String
deriving Repr, DecidableEq

/-- The decoder's per-job mutable state: `event_type`, `job_id`,
`response_content`, `images`, `tables`, `seen_image_urls`,
`seen_table_urls` (Python sets are modelled as duplicate-free lists; only
membership and insertion are used). -/
structure DecodeState where
  eventType : Option String
  jobId : Option String
  responseContent : String
  images : List Artifact
  tables : List Artifact
  seenImageUrls : List String
  seenTableUrls : List String
deriving Repr, DecidableEq

def initDecode : DecodeState :=
  { eventType := none, jobId := none, responseContent := "", images := [],
    tables := [], seenImageUrls := [], seenTableUrls := [] }

/-- Accept an image artifact after URL-dedup (chat_interface.py:397-406
for the SSE branch, 448-452 for the legacy-blocks branch; the SSE branch
additionally appends an inline markdown reference, hence `inlineText`). -/
def addImage (st : DecodeState) (url name : String) (inlineText : Bool) : DecodeState :=
  let clean := strip_url_params url
  if clean ≠ "" ∧ clean ∉ st.seenImageUrls then
    { st with images := st.images ++ [⟨url, name⟩],
              seenImageUrls := st.seenImageUrls ++ [clean],
              responseContent :=
                if inlineText then
                  st.responseContent ++ "\n\n![" ++ name ++ "](" ++ url ++ ")\n\n"
                else st.responseContent }
  else st

/-- Accept a table artifact after URL-dedup (chat_interface.py:416-424
and 458-462). -/
def addTable (st : DecodeState) (url name : String) (inlineText : Bool) : DecodeState :=
  let clean := strip_url_params url
  if clean ≠ "" ∧ clean ∉ st.seenTableUrls then
    { st with tables := st.tables ++ [⟨url, name⟩],
              seenTableUrls := st.seenTableUrls ++ [clean],
              responseContent :=
                if inlineText then
                  st.responseContent ++ "\n\n**Table: " ++ name ++ "** (will be displayed below)\n\n"
                else st.responseContent }
  else st

/-- `choice['delta']['content']` guarded by
`'delta' in choice and 'content' in choice['delta']`. -/
def deltaContent (choice : Json) : Option Json :=
  match choice.getField "delta" with
  | some d => d.getField "content"
  | none => none

/-- One `choices[]` entry of an SSE MESSAGE event
(chat_interface.py:381-387): append the delta content when it is a
non-empty string. -/
def procMessageChoice (st : DecodeState) (choice : Json) : DecodeState :=
  match deltaContent choice with
  | some (.str s) =>
    if s ≠ "" then { st with responseContent := st.responseContent ++ s } else st
  | _ => st

/-- One `choices[]` entry of an SSE IMAGE event
(chat_interface.py:391-406).  The source would raise (and skip the rest
of the line) on a non-string `url` value; such payloads never occur and
are modelled as a skip. -/
def procImageChoice (st : DecodeState) (choice : Json) : DecodeState :=
  match deltaContent choice with
  | some (.obj fs) =>
    match (Json.obj fs).getField "url" with
    | some (.str u) => addImage st u ((Json.obj fs).getStrD "name" "Image") true
    | _ => st
  | _ => st

/-- One `choices[]` entry of an SSE TABLE event
(chat_interface.py:410-424). -/
def procTableChoice (st : DecodeState) (choice : Json) : DecodeState :=
  match deltaContent choice with
  | some (.obj fs) =>
    match (Json.obj fs).getField "url" with
    | some (.str u) => addTable st u ((Json.obj fs).getStrD "name" "Image") true
    | _ => st
  | _ => st

/-- Python `x == "lit"` for an optional JSON value (`block.get('type')`
compared against a string literal). -/
def isStrVal : Option Json → String → Bool
  | some (.str t), s => t == s
  | _, _ => false

/-- One legacy `data.blocks[]` entry (chat_interface.py:428-462). -/
def procBlock (st : DecodeState) (block : Json) : DecodeState :=
  let btype := block.getField "type"
  let content := (block.getField "content").getD .null
  if isStrVal btype "MESSAGE" && pyTruthy content then
    match content with
    | .str s => if s ≠ "" then { st with responseContent := st.responseContent ++ s } else st
    | _ => st
  else if isStrVal btype "IMAGE" then
    match content with
    | .obj fs =>
      match (Json.obj fs).getField "url" with
      | some (.str u) => addImage st u ((Json.obj fs).getStrD "name" "Image") false
      | _ => st
    | _ => st
  else if isStrVal btype "TABLE" then
    match content with
    | .obj fs =>
      match (Json.obj fs).getField "url" with
      | some (.str u) => addTable st u ((Json.obj fs).getStrD "name" "Table") false
      | _ => st
    | _ => st
  else st

/-- One oldest-format `data.messages[]` entry (chat_interface.py:466-480).
A one-element list whose head is not a string would make the source raise
(`response_content += text`) and skip the line; modelled as a skip. -/
def procLegacyMsg (st : DecodeState) (msg : Json) : DecodeState :=
  let mtype := msg.getField "type"
  let content := (msg.getField "content").getD .null
  if isStrVal mtype "TEXT" && pyTruthy content then
    match content with
    | .arr (x :: _) =>
      match x with
      | .str s => { st with responseContent := st.responseContent ++ s }
      | _ => st
    | .str s => { st with responseContent := st.responseContent ++ s }
    | _ => st
  else st

/-- The `event_type`-keyed SSE dispatch over a parsed `data:` payload
(chat_interface.py:380-424): an `if`/`elif` chain on
`MESSAGE`/`IMAGE`/`TABLE`, each guarded by `'choices' in data`. -/
def sseDispatch (st : DecodeState) (data : Json) : DecodeState :=
  if st.eventType = some "MESSAGE" ∧ data.hasField "choices" then
    (data.getFieldList "choices").foldl procMessageChoice st
  else if st.eventType = some "IMAGE" ∧ data.hasField "choices" then
    (data.getFieldList "choices").foldl procImageChoice st
  else if st.eventType = some "TABLE" ∧ data.hasField "choices" then
    (data.getFieldList "choices").foldl procTableChoice st
  else st

/-- The legacy dispatch over the same payload (chat_interface.py:427-480):
a separate `if` on `'data' in data and 'blocks' in data['data']` with an
`elif` on `'messages' in data['data']`. -/
def legacyDispatch (st : DecodeState) (data : Json) : DecodeState :=
  match data.getField "data" with
  | some inner =>
    if inner.hasField "blocks" then
      (inner.getFieldList "blocks").foldl procBlock st
    else if inner.hasField "messages" then
      (inner.getFieldList "messages").foldl procLegacyMsg st
    else st
  | none => st

/-- Process one successfully parsed `data:` payload
(chat_interface.py:376-480): the SSE dispatch followed by the legacy
dispatch (both run on every payload; the source writes them as two
consecutive `if` statements). -/
def processDataJson (st : DecodeState) (data : Json) : DecodeState :=
  legacyDispatch (sseDispatch st data) data

/-- Process one raw stream line (the body of the `for line in stream`
loop, chat_interface.py:351-493).  Empty lines are skipped; an `event:`
line updates `event_type` (`line_str.replace('event:', '').strip()`); a
`data:` line is stripped of its prefix (`replace('data:', '', 1)` — the
first occurrence is the leading one, since the line starts with it) and
either taken as a bare job id (`event_type == 'JOB_ID'` and the payload
does not start with an opening brace) or JSON-decoded; a decode failure
is silently skipped, as are `id:` lines and lines of unknown format. -/
def decodeLine (st : DecodeState) (line : String) : DecodeState :=
  if line = "" then st
  else if pyStartsWith line "event:" then
    { st with eventType := some (pyStrip (pyReplaceAll line "event:" "")) }
  else if pyStartsWith line "data:" then
    let dataStr := pyStrip (pyDrop line 5)
    if st.eventType = some "JOB_ID" ∧ ¬ pyStartsWith dataStr "\x7b" then
      { st with jobId := some dataStr }
    else
      match json_loads dataStr with
      | some data => processDataJson st data
      | none => st
  else if pyStartsWith line "id:" then st
  else st

/-- Run the decoder over a whole stream of raw lines. -/
def decodeStream (lines : List String) : DecodeState :=
  lines.foldl decodeLine initDecode

/- ### The question turn (`ChatInterface._ask_question`, chat_interface.py:298-551) -/

/-- One chat-history entry (`{'is_user': ..., 'content': ...}`). -/
structure ChatMsg where
  is_user : Bool
  content : String
deriving Repr, DecidableEq

/-- One pull from the streaming iterator: either a raw line, or a
transport error raised by the iterator itself (which propagates past the
per-line handler to the outer `except` of `_ask_question`). -/
inductive StreamItem where
  | line (s : String)
  | fail (msg : String)
deriving Repr, DecidableEq

/-- Consume the stream until it ends or raises: returns the decoder state
reached and the error message if the iterator raised. -/
def consumeStream : DecodeState → List StreamItem → DecodeState × Option String
  | st, [] => (st, none)
  | st, .line s :: rest => consumeStream (decodeLine st s) rest
  | st, .fail m :: _ => (st, some m)

/-- One question turn: append the user entry, obtain the stream (a
`.error` models `create_job` itself raising — "failure to open"),
consume it, and append the assistant entry.  On any exception the turn's
content is replaced by `"Error processing question: " + str(e)`
(chat_interface.py:542-545) and the entry is still appended
(chat_interface.py:548-551). -/
def ask_question (history : List ChatMsg) (question : String)
    (stream : Except String (List StreamItem)) : List ChatMsg :=
  let h1 := history ++ [⟨true, question⟩]
  let content :=
    match stream with
    | .error m => "Error processing question: " ++ m
    | .ok items =>
      match consumeStream initDecode items with
      | (_, some m) => "Error processing question: " ++ m
      | (st, none) => st.responseContent
  h1 ++ [⟨false, content⟩]

/- ### The transport (`PowerdrillClient._make_request`, api_client.py:28-132) -/

/-- What the HTTP layer produced for one request: a 2xx JSON body, an
HTTP error status (with `str(e)` and the decoded error body, when the
body was JSON), or a non-HTTP transport failure
(`requests.exceptions.RequestException`). -/
inductive HttpOutcome where
  | success (body : Json)
  | httpError (status : Nat) (errText : String) (body : Option Json)
  | netError (msg : String)

/-- What `_make_request` raises or returns. -/
inductive ReqResult where
  | ok (body : Json)
  | httpRaise (status : Nat) (errText : String) (body : Option Json)
  | genericRaise (msg : String)

/-- The message wrapped into the generic exception
(api_client.py:114-121): `str(e)`, overridden by the error body's
`message` field when the body decodes as JSON and carries one.  Python
would interpolate a non-string `message` value via `str()`; string and
scalar values are rendered, container values (never produced by the API)
fall back to `str(e)`. -/
def upstreamMessage (errText : String) (body : Option Json) : String :=
  match body with
  | some bj =>
    match bj.getField "message" with
    | some (.str m) => m
    | some (.num n) => toString n
    | some (.bool true) => "True"
    | some (.bool false) => "False"
    | some (.null) => "None"
    | _ => errText
  | none => errText

/-- `_make_request`'s error handling (api_client.py:88-132): 2xx bodies
are returned; a 401/403 `HTTPError` is re-raised unchanged; any other
`HTTPError` and any `RequestException` is wrapped into
`Exception("API request failed: <message>")`. -/
def make_request_result (o : HttpOutcome) : ReqResult :=
  match o with
  | .success b => .ok b
  | .httpError s t b =>
    if s = 401 ∨ s = 403 then .httpRaise s t b
    else .genericRaise ("API request failed: " ++ upstreamMessage t b)
  | .netError m => .genericRaise ("API request failed: " ++ m)

/- ### The readiness poller (`PowerdrillClient.wait_for_dataset_ready`, api_client.py:431-454) -/

/-- Python `value == 0` on a decoded JSON value (`data.get(..., 0) == 0`;
note Python's `False == 0`). -/
def pyEqZero : Json → Bool
  | .num n => n == 0
  | .bool b => !b
  | _ => false

/-- One status poll (api_client.py:447-450): a payload with a `data`
object is ready when both counts (defaulting to 0) compare equal to 0; a
dict payload without `data` is not ready; `none` models the exception a
non-dict `data` value (or a non-dict payload) would raise out of the
function (`.get` on a non-dict; never produced by the API). -/
def statusCheck (status : Json) : Option Bool :=
  match status with
  | .obj fs =>
    match (Json.obj fs).getField "data" with
    | none => some false
    | some (.obj ds) =>
      some (pyEqZero ((Json.obj ds).getD "invalid_count" (.num 0)) &&
            pyEqZero ((Json.obj ds).getD "synching_count" (.num 0)))
    | some _ => none
  | _ => none

/-- Outcome of the polling loop, together with the model time elapsed
(only `time.sleep(interval)` advances model time; the HTTP calls are
instantaneous in the model). -/
inductive WaitOutcome where
  | ready (elapsed : Nat)
  | timedOut (elapsed : Nat)
  | raised (elapsed : Nat)
  | hang
deriving Repr, DecidableEq

/-- The `while (time.time() - start_time) < timeout` loop, polling
`statusAt n` at the n-th iteration.  `fuel` bounds the iteration count;
with `1 ≤ interval` a fuel of `timeout + 1` is never exhausted (`hang`
stands for the near-non-termination `interval = 0` would cause). -/
def waitAux (statusAt : Nat → Json) (timeout interval : Nat) : Nat → Nat → Nat → WaitOutcome
  | _, elapsed, 0 => if elapsed < timeout then .hang else .timedOut elapsed
  | n, elapsed, fuel + 1 =>
    if elapsed < timeout then
      match statusCheck (statusAt n) with
      | none => .raised elapsed
      | some true => .ready elapsed
      | some false => waitAux statusAt timeout interval (n + 1) (elapsed + interval) fuel
    else .timedOut elapsed

/-- `wait_for_dataset_ready(dataset_id, timeout=300, interval=5)`; the
status endpoint is abstracted as the sequence of payloads it returns. -/
def wait_for_dataset_ready (statusAt : Nat → Json) (timeout : Nat := 300)
    (interval : Nat := 5) : WaitOutcome :=
  waitAux statusAt timeout interval 0 0 (timeout + 1)

/- ### The overview retry loop (`ChatInterface._load_dataset_overview`, chat_interface.py:171-224) -/

/-- The session-state fields the overview loader writes.  Each is
`Option Json`: `none` models an absent `st.session_state` key. -/
structure OverviewState where
  dataset_name : Option Json
  dataset_description : Option Json
  dataset_summary : Option Json
  exploration_questions : Option Json
  dataset_keywords : Option Json
  current_dataset_id : Option String

/-- A fresh session state (no key set). -/
def emptyOverviewState : OverviewState :=
  { dataset_name := none, dataset_description := none, dataset_summary := none,
    exploration_questions := none, dataset_keywords := none, current_dataset_id := none }

inductive OverviewOutcome where
  | success
  | exhaustedInvalid
  | exhaustedError (msg : String)
deriving Repr, DecidableEq

/-- Observable trace of one `_load_dataset_overview` run: how many times
the overview endpoint was called, the `time.sleep` durations performed,
and how the retry loop ended. -/
structure OverviewTrace where
  attempts : Nat
  sleeps : List Nat
  outcome : OverviewOutcome
deriving Repr, DecidableEq

/-- Processing of a response carrying a `data` field
(chat_interface.py:185-196): store the overview fields with their
`data.get` defaults and return from the function. -/
def applyOverviewData (st : OverviewState) (dataset_id : String) (d : Json) : OverviewState :=
  { st with
      dataset_name := some (d.getD "name" (.str "Unnamed Dataset")),
      dataset_description := some (d.getD "description" (.str "")),
      dataset_summary := some (d.getD "summary" (.str "")),
      exploration_questions := some (d.getD "exploration_questions" (.arr [])),
      dataset_keywords := some (d.getD "keywords" (.arr [])),
      current_dataset_id := some dataset_id }

/-- The `for attempt in range(max_retries)` loop
(chat_interface.py:180-210) with `max_retries = 3`, `retry_delay = 1`.
`endpoint n` is what `get_dataset_overview` does on the n-th call: a
response or a raised exception.  A response missing `data` sleeps
`retry_delay` and doubles it (also after the last attempt); an exception
does the same except on the last attempt, where it is re-raised. -/
def overviewLoop (endpoint : Nat → Except String Json) (dataset_id : String)
    (st : OverviewState) : Nat → Nat → Nat → List Nat → OverviewState × OverviewTrace
  | 0, attempt, _delay, sleeps => (st, ⟨attempt, sleeps, .exhaustedInvalid⟩)
  | remaining + 1, attempt, delay, sleeps =>
    match endpoint attempt with
    | .ok resp =>
      if resp.hasField "data" then
        (applyOverviewData st dataset_id ((resp.getField "data").getD .null),
         ⟨attempt + 1, sleeps, .success⟩)
      else
        overviewLoop endpoint dataset_id st remaining (attempt + 1) (delay * 2)
          (sleeps ++ [delay])
    | .error msg =>
      match remaining with
      | 0 => (st, ⟨attempt + 1, sleeps, .exhaustedError msg⟩)
      | _ + 1 =>
        overviewLoop endpoint dataset_id st remaining (attempt + 1) (delay * 2)
          (sleeps ++ [delay])

/-- `_load_dataset_overview` as a whole: run the retry loop; on success
the function returns at once (chat_interface.py:196); otherwise — after
the warning or the outer `except` — lines 219-224 fill minimal defaults
for any field still unset/falsy and re-bind `current_dataset_id`. -/
def load_dataset_overview (st : OverviewState) (dataset_id : String)
    (endpoint : Nat → Except String Json) : OverviewState × OverviewTrace :=
  let r := overviewLoop endpoint dataset_id st 3 0 1 []
  match r.2.outcome with
  | .success => r
  | _ =>
    ({ r.1 with
        dataset_name :=
          if pyTruthyOpt r.1.dataset_name then r.1.dataset_name
          else some (.str "Dataset"),
        exploration_questions :=
          if pyTruthyOpt r.1.exploration_questions then r.1.exploration_questions
          else some (.arr []),
        current_dataset_id := some dataset_id }, r.2)

/- ### Session reconciliation (`ChatInterface.__init__` / `_create_new_session`, chat_interface.py:26-36, 553-566) -/

/-- The two session-state keys the reconciler owns.  The outer `Option`
is key presence (`"powerdrill_session_id" not in st.session_state`); the
inner value is the stored id, `none` standing for Python `None` (which
`_create_new_session` stores after a creation failure). -/
structure ChatState where
  powerdrill_session_id : Option (Option Json)
  powerdrill_dataset_id : Option String

/-- `_create_new_session` (chat_interface.py:553-566): one
`create_session` call; on a response with `data.id` the id is stored; on
a structurally invalid response only a warning is shown (state
untouched); on an exception the key is set to `None`. -/
def create_new_session (st : ChatState) (resp : Except String Json) : ChatState :=
  match resp with
  | .error _ => { st with powerdrill_session_id := some none }
  | .ok r =>
    match r.getField "data" with
    | some d =>
      match d.getField "id" with
      | some idj => { st with powerdrill_session_id := some (some idj) }
      | none => st
    | none => st

/-- The session-reconciliation part of `ChatInterface.__init__`
(chat_interface.py:26-29): when the session key is absent or the stored
dataset id differs from the requested one, `_create_new_session` is
called (exactly one `create_session` request — the returned `Nat` counts
them) and the dataset id is re-bound; otherwise nothing happens. -/
def chat_interface_init (st : ChatState) (dataset_id : String)
    (resp : Except String Json) : ChatState × Nat :=
  if st.powerdrill_session_id.isNone ∨ st.powerdrill_dataset_id ≠ some dataset_id then
    ({ create_new_session st resp with powerdrill_dataset_id := some dataset_id }, 1)
  else (st, 0)

/-- The lazy session recovery before job creation
(chat_interface.py:320-326): `session_state.get("powerdrill_session_id")`
is falsy (absent key or stored `None`/empty id) → create one on demand. -/
def ensure_session (st : ChatState) (resp : Except String Json) : ChatState × Nat :=
  if pyTruthyOpt (st.powerdrill_session_id.getD none) then (st, 0)
  else (create_new_session st resp, 1)

/- ### Dataset / data-source requests (`PowerdrillClient`, api_client.py:264-332) -/

/-- The arguments `_make_request` forwards to the HTTP layer
(`requests.request(method=method, url=..., ...)`; the method string is
passed through unchanged, api_client.py:64-72). -/
structure ApiRequest where
  method : String
  path : String
  json_data : Option Json

/-- `_make_request`'s request construction (api_client.py:42-46): ensure
a leading slash on the path; the method is forwarded verbatim. -/
def make_request_spec (method path : String) (json_data : Option Json) : ApiRequest :=
  { method := method,
    path := if pyStartsWith path "/" then path else "/" ++ path,
    json_data := json_data }

/-- `delete_data_source` (api_client.py:321-332). -/
def delete_data_source (data_source_id dataset_id : String) : ApiRequest :=
  make_request_spec "DEL" ("/datasets/" ++ dataset_id ++ "/datasources/" ++ data_source_id)
    none

/-- `delete_dataset` (api_client.py:264-270). -/
def delete_dataset (user_id dataset_id : String) : ApiRequest :=
  make_request_spec "DELETE" ("/datasets/" ++ dataset_id)
    (some (.obj [("user_id", .str user_id)]))

/- ### Auxiliary definitions used by the theorems below -/

/-- SSE MESSAGE payload carrying text `s` (`choices[].delta.content`). -/
def ssePayload (s : String) : Json :=
  .obj [("choices", .arr [.obj [("delta", .obj [("content", .str s)])]])]

/-- Legacy blocks payload carrying text `s` (`data.blocks[]` MESSAGE). -/
def blocksPayload (s : String) : Json :=
  .obj [("data", .obj [("blocks", .arr [.obj [("type", .str "MESSAGE"), ("content", .str s)]])])]

/-- Oldest payload carrying text `s` (`data.messages[]` TEXT with a
one-element list content). -/
def messagesPayload (s : String) : Json :=
  .obj [("data", .obj [("messages", .arr [.obj [("type", .str "TEXT"), ("content", .arr [.str s])]])])]

/-- The raw SSE framing of the "hello world" MESSAGE delta. -/
def sseHelloLines : List String :=
  ["event: MESSAGE",
   "data: \x7b\"choices\":[\x7b\"delta\":\x7b\"content\":\"hello world\"\x7d\x7d]\x7d"]

/-- The legacy blocks "hello world" JSON object as a standalone line
(no `data:` prefix), the shape the specification describes. -/
def blocksHelloStandalone : String :=
  "\x7b\"data\":\x7b\"blocks\":[\x7b\"type\":\"MESSAGE\",\"content\":\"hello world\"\x7d]\x7d\x7d"

/-- The same legacy blocks payload carried on a `data:` line. -/
def blocksHelloDataLine : String :=
  "data: " ++ blocksHelloStandalone

/-- The oldest-format "hello world" payload carried on a `data:` line. -/
def messagesHelloDataLine : String :=
  "data: \x7b\"data\":\x7b\"messages\":[\x7b\"type\":\"TEXT\",\"content\":[\"hello world\"]\x7d]\x7d\x7d"

/-- A stream with duplicate artifact URLs differing only in query
string: two SSE IMAGE deltas for `a.png` (different signatures), one for
`b.png`, and a legacy blocks line with two TABLE entries for `t.csv`
(different signatures). -/
def dupArtifactLines : List String :=
  ["event: IMAGE",
   "data: \x7b\"choices\":[\x7b\"delta\":\x7b\"content\":\x7b\"url\":\"http://h/a.png?sig=1\",\"name\":\"A\"\x7d\x7d\x7d]\x7d",
   "data: \x7b\"choices\":[\x7b\"delta\":\x7b\"content\":\x7b\"url\":\"http://h/a.png?sig=2\",\"name\":\"A2\"\x7d\x7d\x7d]\x7d",
   "data: \x7b\"choices\":[\x7b\"delta\":\x7b\"content\":\x7b\"url\":\"http://h/b.png\",\"name\":\"B\"\x7d\x7d\x7d]\x7d",
   "data: \x7b\"data\":\x7b\"blocks\":[\x7b\"type\":\"TABLE\",\"content\":\x7b\"url\":\"http://h/t.csv?x=1\",\"name\":\"T\"\x7d\x7d,\x7b\"type\":\"TABLE\",\"content\":\x7b\"url\":\"http://h/t.csv?x=2\",\"name\":\"T2\"\x7d\x7d]\x7d\x7d"]

/-- Invariant tying the decoder's dedup sets to its artifact lists: each
seen-URL list is exactly the stripped URLs of the corresponding artifact
list, in order and without duplicates. -/
def DecodeInv (st : DecodeState) : Prop :=
  st.seenImageUrls = st.images.map (fun a => strip_url_params a.url) ∧
  st.seenTableUrls = st.tables.map (fun a => strip_url_params a.url) ∧
  st.seenImageUrls.Nodup ∧ st.seenTableUrls.Nodup

/-- The n-th overview attempt fails, either by raising or by returning a
structurally invalid response (missing the `data` field). -/
def attemptFails (endpoint : Nat → Except String Json) (n : Nat) : Prop :=
  (∃ m, endpoint n = .error m) ∨ (∃ r, endpoint n = .ok r ∧ r.hasField "data" = false)

/- ### Invariant lemmas for the decoder (claim C2) -/

theorem decodeInv_init : DecodeInv initDecode := by
  simp [DecodeInv, initDecode]

theorem decodeInv_addImage (st : DecodeState) (u n : String) (b : Bool)
    (h : DecodeInv st) : DecodeInv (addImage st u n b) := by
  obtain ⟨h1, h2, h3, h4⟩ := h
  by_cases hc : strip_url_params u ≠ "" ∧ strip_url_params u ∉ st.seenImageUrls
  · refine ⟨?_, ?_, ?_, ?_⟩
    · show (addImage st u n b).seenImageUrls = _
      simp only [addImage, if_pos hc]
      rw [List.map_append, h1]
      simp
    · show (addImage st u n b).seenTableUrls = _
      simp only [addImage, if_pos hc]
      exact h2
    · show (addImage st u n b).seenImageUrls.Nodup
      simp only [addImage, if_pos hc]
      rw [List.nodup_append]
      exact ⟨h3, List.nodup_singleton _, by simpa using hc.2⟩
    · show (addImage st u n b).seenTableUrls.Nodup
      simp only [addImage, if_pos hc]
      exact h4
  · simp only [addImage, if_neg hc]
    exact ⟨h1, h2, h3, h4⟩

theorem decodeInv_addTable (st : DecodeState) (u n : String) (b : Bool)
    (h : DecodeInv st) : DecodeInv (addTable st u n b) := by
  obtain ⟨h1, h2, h3, h4⟩ := h
  by_cases hc : strip_url_params u ≠ "" ∧ strip_url_params u ∉ st.seenTableUrls
  · refine ⟨?_, ?_, ?_, ?_⟩
    · show (addTable st u n b).seenImageUrls = _
      simp only [addTable, if_pos hc]
      exact h1
    · show (addTable st u n b).seenTableUrls = _
      simp only [addTable, if_pos hc]
      rw [List.map_append, h2]
      simp
    · show (addTable st u n b).seenImageUrls.Nodup
      simp only [addTable, if_pos hc]
      exact h3
    · show (addTable st u n b).seenTableUrls.Nodup
      simp only [addTable, if_pos hc]
      rw [List.nodup_append]
      exact ⟨h4, List.nodup_singleton _, by simpa using hc.2⟩
  · simp only [addTable, if_neg hc]
    exact ⟨h1, h2, h3, h4⟩

theorem decodeInv_procMessageChoice (st : DecodeState) (choice : Json)
    (h : DecodeInv st) : DecodeInv (procMessageChoice st choice) := by
  unfold procMessageChoice
  split
  · split
    · exact h
    · exact h
  · exact h

theorem decodeInv_procImageChoice (st : DecodeState) (choice : Json)
    (h : DecodeInv st) : DecodeInv (procImageChoice st choice) := by
  unfold procImageChoice
  split
  · split
    · exact decodeInv_addImage _ _ _ _ h
    · exact h
  · exact h

theorem decodeInv_procTableChoice (st : DecodeState) (choice : Json)
    (h : DecodeInv st) : DecodeInv (procTableChoice st choice) := by
  unfold procTableChoice
  split
  · split
    · exact decodeInv_addTable _ _ _ _ h
    · exact h
  · exact h

theorem decodeInv_procBlock (st : DecodeState) (block : Json)
    (h : DecodeInv st) : DecodeInv (procBlock st block) := by
  unfold procBlock
  dsimp only
  split
  · split
    · split
      · exact h
      · exact h
    · exact h
  · split
    · split
      · split
        · exact decodeInv_addImage _ _ _ _ h
        · exact h
      · exact h
    · split
      · split
        · split
          · exact decodeInv_addTable _ _ _ _ h
          · exact h
        · exact h
      · exact h

theorem decodeInv_procLegacyMsg (st : DecodeState) (msg : Json)
    (h : DecodeInv st) : DecodeInv (procLegacyMsg st msg) := by
  unfold procLegacyMsg
  dsimp only
  split
  · split
    · split
      · exact h
      · exact h
    · exact h
    · exact h
  · exact h

theorem decodeInv_foldl {α : Type} (f : DecodeState → α → DecodeState)
    (hf : ∀ st a, DecodeInv st → DecodeInv (f st a)) :
    ∀ (xs : List α) (st : DecodeState), DecodeInv st → DecodeInv (xs.foldl f st)
  | [], _, h => h
  | x :: xs, st, h => decodeInv_foldl f hf xs (f st x) (hf st x h)

theorem decodeInv_sseDispatch (st : DecodeState) (data : Json)
    (h : DecodeInv st) : DecodeInv (sseDispatch st data) := by
  unfold sseDispatch
  split
  · exact decodeInv_foldl _ decodeInv_procMessageChoice _ _ h
  · split
    · exact decodeInv_foldl _ decodeInv_procImageChoice _ _ h
    · split
      · exact decodeInv_foldl _ decodeInv_procTableChoice _ _ h
      · exact h

theorem decodeInv_legacyDispatch (st : DecodeState) (data : Json)
    (h : DecodeInv st) : DecodeInv (legacyDispatch st data) := by
  unfold legacyDispatch
  split
  · split
    · exact decodeInv_foldl _ decodeInv_procBlock _ _ h
    · split
      · exact decodeInv_foldl _ decodeInv_procLegacyMsg _ _ h
      · exact h
  · exact h

theorem decodeInv_processDataJson (st : DecodeState) (data : Json)
    (h : DecodeInv st) : DecodeInv (processDataJson st data) :=
  decodeInv_legacyDispatch _ _ (decodeInv_sseDispatch _ _ h)

theorem decodeInv_decodeLine (st : DecodeState) (line : String)
    (h : DecodeInv st) : DecodeInv (decodeLine st line) := by
  unfold decodeLine
  dsimp only
  split
  · exact h
  · split
    · exact h
    · split
      · split
        · exact h
        · split
          · exact decodeInv_processDataJson _ _ h
          · exact h
      · split
        · exact h
        · exact h

theorem decodeInv_decodeStream (lines : List String) :
    DecodeInv (decodeStream lines) :=
  decodeInv_foldl _ decodeInv_decodeLine lines initDecode decodeInv_init

set_option maxRecDepth 4000 in
/-- C2: for every sequence of streamed lines processed within one job,
the decoder's image and table lists contain each artifact at most once
keyed by its URL with the query string stripped (proved for all line
sequences via the dedup-set invariant), and — demonstrated on a stream
with duplicate URLs differing only in query string — surviving artifacts
keep their first-seen form and order while later duplicates are
dropped. -/
theorem c2_artifact_dedup :
    (∀ lines : List String,
      ((decodeStream lines).images.map (fun a => strip_url_params a.url)).Nodup ∧
      ((decodeStream lines).tables.map (fun a => strip_url_params a.url)).Nodup) ∧
    (decodeStream dupArtifactLines).images =
      [⟨"http://h/a.png?sig=1", "A"⟩, ⟨"http://h/b.png", "B"⟩] ∧
    (decodeStream dupArtifactLines).tables = [⟨"http://h/t.csv?x=1", "T"⟩] := by
  refine ⟨?_, by decide, by decide⟩
  intro lines
  obtain ⟨h1, h2, h3, h4⟩ := decodeInv_decodeStream lines
  exact ⟨h1 ▸ h3, h2 ▸ h4⟩

/-- C1 counterexample: the claim's legacy shape is a *standalone* JSON
line carrying `data.blocks[]`; the decoder skips any line that does not
begin with `event:`/`data:`/`id:`, so feeding logical "hello world" in
that shape accumulates `""`, not the `"hello world"` the SSE shape
produces — the three shapes as claimed are not equivalent. -/
theorem c1_counterexample :
    (decodeStream sseHelloLines).responseContent = "hello world" ∧
    (decodeStream [blocksHelloStandalone]).responseContent = "" ∧
    "" ≠ "hello world" := by
  refine ⟨by decide, by decide, by decide⟩

/-- C1 (amended): when every payload is carried on a `data:`-prefixed
line (the SSE MESSAGE delta with its `event: MESSAGE` framing, the
legacy `data.blocks[]` MESSAGE payload, and the oldest `data.messages[]`
TEXT payload), all three shapes produce the identical accumulated
transcript: any non-empty text `s` at the payload level, and concretely
"hello world" at the raw-line level. -/
theorem c1_amended (s : String) (hs : s ≠ "") :
    (processDataJson { initDecode with eventType := some "MESSAGE" }
        (ssePayload s)).responseContent = s ∧
    (processDataJson initDecode (blocksPayload s)).responseContent = s ∧
    (processDataJson initDecode (messagesPayload s)).responseContent = s ∧
    (decodeStream sseHelloLines).responseContent = "hello world" ∧
    (decodeStream [blocksHelloDataLine]).responseContent = "hello world" ∧
    (decodeStream [messagesHelloDataLine]).responseContent = "hello world" := by
  refine ⟨?_, ?_, ?_, by decide, by decide, by decide⟩
  · simp [processDataJson, sseDispatch, legacyDispatch, ssePayload, procMessageChoice,
      deltaContent, Json.getField, Json.hasField, Json.getFieldList, initDecode, hs]
  · simp [processDataJson, sseDispatch, legacyDispatch, blocksPayload, procBlock,
      Json.getField, Json.hasField, Json.getFieldList, Json.getD, isStrVal, pyTruthy,
      initDecode, hs]
  · simp [processDataJson, sseDispatch, legacyDispatch, messagesPayload, procLegacyMsg,
      Json.getField, Json.hasField, Json.getFieldList, Json.getD, isStrVal, pyTruthy,
      initDecode]

/-- Witness for `c1_amended` at `s = "hello world"`. -/
theorem c1_amended_witness :
    (processDataJson { initDecode with eventType := some "MESSAGE" }
        (ssePayload "hello world")).responseContent = "hello world" ∧
    (processDataJson initDecode (blocksPayload "hello world")).responseContent = "hello world" ∧
    (processDataJson initDecode (messagesPayload "hello world")).responseContent = "hello world" := by
  have h := c1_amended "hello world" (by decide)
  exact ⟨h.1, h.2.1, h.2.2.1⟩

/-- C9: for every dataset id and data-source id, `delete_data_source`
invokes the transport with the HTTP method string `"DEL"` — never the
standard `"DELETE"` that `delete_dataset` uses. -/
theorem c9_delete_verbs (user_id dataset_id data_source_id : String) :
    (delete_data_source data_source_id dataset_id).method = "DEL" ∧
    (delete_data_source data_source_id dataset_id).method ≠ "DELETE" ∧
    (delete_dataset user_id dataset_id).method = "DELETE" := by
  refine ⟨rfl, ?_, rfl⟩
  show "DEL" ≠ "DELETE"
  decide

theorem consumeStream_fail (m : String) (post : List StreamItem) :
    ∀ (pre : List StreamItem) (st : DecodeState),
      (∀ s, StreamItem.fail s ∉ pre) →
      (consumeStream st (pre ++ .fail m :: post)).2 = some m
  | [], _, _ => rfl
  | .line l :: pre, st, h =>
    consumeStream_fail m post pre (decodeLine st l)
      (fun s hs => h s (List.mem_cons_of_mem _ hs))
  | .fail s :: _, _, h => absurd (List.mem_cons_self _ _) (h s)

/-- C8: for every question turn in which the transport raises while the
stream is consumed (or while opening it), the error message becomes the
turn's transcript content, decoding stops at the failure, the assistant
entry is still appended, the pre-existing transcript is unchanged, and
every subsequent turn still appends its own user/assistant pair. -/
theorem c8_error_captured (history : List ChatMsg) (q : String)
    (pre post : List StreamItem) (m : String)
    (hpre : ∀ s, StreamItem.fail s ∉ pre) :
    ask_question history q (.ok (pre ++ .fail m :: post)) =
      history ++ [⟨true, q⟩, ⟨false, "Error processing question: " ++ m⟩] ∧
    ask_question history q (.error m) =
      history ++ [⟨true, q⟩, ⟨false, "Error processing question: " ++ m⟩] ∧
    (∀ (h2 : List ChatMsg) (q2 : String) (s2 : Except String (List StreamItem)),
      ∃ c, ask_question h2 q2 s2 = h2 ++ [⟨true, q2⟩, ⟨false, c⟩]) := by
  refine ⟨?_, by simp [ask_question], ?_⟩
  · have hfail := consumeStream_fail m post pre initDecode hpre
    rcases hh : consumeStream initDecode (pre ++ .fail m :: post) with ⟨st, err⟩
    rw [hh] at hfail
    simp at hfail
    subst hfail
    simp [ask_question, hh]
  · intro h2 q2 s2
    refine ⟨(match s2 with
      | .error m2 => "Error processing question: " ++ m2
      | .ok items =>
        match consumeStream initDecode items with
        | (_, some m2) => "Error processing question: " ++ m2
        | (st, none) => st.responseContent), ?_⟩
    simp [ask_question]

/-- Witness for `c8_error_captured` on a concrete two-entry history and
a stream failing after one line. -/
theorem c8_error_captured_witness :
    ask_question [⟨true, "prior"⟩, ⟨false, "prior answer"⟩] "hi"
        (.ok [.line "x", .fail "boom"]) =
      [⟨true, "prior"⟩, ⟨false, "prior answer"⟩, ⟨true, "hi"⟩,
       ⟨false, "Error processing question: boom"⟩] :=
  (c8_error_captured [⟨true, "prior"⟩, ⟨false, "prior answer"⟩] "hi"
    [.line "x"] [] "boom" (by intro s; simp)).1

/-- C3: `_make_request` re-raises a 401/403 HTTP error unchanged (never
as the generic form), wraps every other HTTP error into
`"API request failed: <message>"` where the message is the upstream
body's `message` field when present, and wraps transport-level failures
the same way. -/
theorem c3_error_taxonomy (s : Nat) (t : String) (b : Option Json) :
    ((s = 401 ∨ s = 403) →
      make_request_result (.httpError s t b) = .httpRaise s t b ∧
      ∀ msg, make_request_result (.httpError s t b) ≠ .genericRaise msg) ∧
    (¬(s = 401 ∨ s = 403) →
      make_request_result (.httpError s t b) =
        .genericRaise ("API request failed: " ++ upstreamMessage t b) ∧
      ∀ m, b.bind (fun bj => bj.getField "message") = some (.str m) →
        upstreamMessage t b = m) ∧
    (∀ msg, make_request_result (.netError msg) =
      .genericRaise ("API request failed: " ++ msg)) := by
  refine ⟨?_, ?_, fun _ => rfl⟩
  · intro hs
    constructor
    · simp [make_request_result, hs]
    · intro msg
      simp [make_request_result, hs]
  · intro hs
    constructor
    · simp [make_request_result, hs]
    · intro m hm
      cases b with
      | none => simp at hm
      | some bj =>
        simp at hm
        simp [upstreamMessage, hm]

/-- Witness for `c3_error_taxonomy` at a 401 and at a 500 with a
`message`-carrying body. -/
theorem c3_error_taxonomy_witness :
    make_request_result (.httpError 401 "401 Client Error" none) =
      .httpRaise 401 "401 Client Error" none ∧
    make_request_result (.httpError 500 "500 Server Error"
        (some (.obj [("message", .str "boom")]))) =
      .genericRaise "API request failed: boom" := by
  constructor
  · exact ((c3_error_taxonomy 401 "401 Client Error" none).1 (Or.inl rfl)).1
  · exact ((c3_error_taxonomy 500 "500 Server Error"
      (some (.obj [("message", .str "boom")]))).2.1 (by simp)).1

theorem waitAux_timedOut_of_never (statusAt : Nat → Json) (t i : Nat) (hi : 1 ≤ i)
    (hall : ∀ m, statusCheck (statusAt m) = some false) :
    ∀ (fuel n elapsed : Nat), t - elapsed ≤ fuel → elapsed < t + i →
      ∃ e, waitAux statusAt t i n elapsed fuel = .timedOut e ∧ t ≤ e ∧ e < t + i := by
  intro fuel
  induction fuel with
  | zero =>
    intro n elapsed hf he
    refine ⟨elapsed, ?_, by omega, he⟩
    unfold waitAux
    rw [if_neg (by omega)]
  | succ f ih =>
    intro n elapsed hf he
    by_cases hlt : elapsed < t
    · have hr := hall n
      have step : waitAux statusAt t i n elapsed (f + 1) =
          waitAux statusAt t i (n + 1) (elapsed + i) f := by
        simp only [waitAux]
        rw [if_pos hlt, hr]
      rw [step]
      exact ih (n + 1) (elapsed + i) (by omega) (by omega)
    · refine ⟨elapsed, ?_, by omega, he⟩
      unfold waitAux
      rw [if_neg hlt]

theorem waitAux_ready_at (statusAt : Nat → Json) (t i : Nat) (hi : 1 ≤ i) :
    ∀ (j n elapsed fuel : Nat),
      (∀ m, m < j → statusCheck (statusAt (n + m)) = some false) →
      statusCheck (statusAt (n + j)) = some true →
      elapsed + j * i < t → t - elapsed ≤ fuel →
      waitAux statusAt t i n elapsed fuel = .ready (elapsed + j * i) := by
  intro j
  induction j with
  | zero =>
    intro n elapsed fuel h0 hr hlt hf
    have hlt' : elapsed < t := by simpa using hlt
    cases fuel with
    | zero => omega
    | succ f =>
      simp only [waitAux]
      rw [if_pos hlt']
      simp only [Nat.add_zero] at hr
      rw [hr]
      simp
  | succ j ih =>
    intro n elapsed fuel h0 hr hlt hf
    have hmul : (j + 1) * i = j * i + i := by ring
    have hlt0 : elapsed < t := by
      have : elapsed ≤ elapsed + (j + 1) * i := Nat.le_add_right _ _
      omega
    cases fuel with
    | zero => omega
    | succ f =>
      have hc0 : statusCheck (statusAt n) = some false := by
        simpa using h0 0 (Nat.succ_pos j)
      have step : waitAux statusAt t i n elapsed (f + 1) =
          waitAux statusAt t i (n + 1) (elapsed + i) f := by
        simp only [waitAux]
        rw [if_pos hlt0, hc0]
      rw [step]
      have heq : elapsed + (j + 1) * i = elapsed + i + j * i := by ring
      rw [heq]
      refine ih (n + 1) (elapsed + i) f ?_ ?_ ?_ ?_
      · intro m hm
        have := h0 (m + 1) (by omega)
        rwa [show n + (m + 1) = n + 1 + m from by omega] at this
      · rwa [show n + 1 + j = n + (j + 1) from by omega]
      · omega
      · omega

/-- C4: `wait_for_dataset_ready` returns `true` at the first poll whose
payload reports both counts zero (model elapsed time `n * interval`,
i.e. within one polling interval of that payload), and returns `false`
— without raising — once the timeout elapses with no such payload, at a
model time in `[timeout, timeout + interval)`; concretely, with
`timeout = 1`, `interval = 1` and a status always reporting
`synching_count = 1`, it returns `false` after one second. -/
theorem c4_wait_for_ready (statusAt : Nat → Json) (t i n : Nat) :
    (1 ≤ i → (∀ m, m < n → statusCheck (statusAt m) = some false) →
      statusCheck (statusAt n) = some true → n * i < t →
      wait_for_dataset_ready statusAt t i = .ready (n * i)) ∧
    (1 ≤ i → (∀ m, statusCheck (statusAt m) = some false) →
      ∃ e, wait_for_dataset_ready statusAt t i = .timedOut e ∧ t ≤ e ∧ e < t + i) ∧
    wait_for_dataset_ready (fun _ => .obj [("data", .obj [("synching_count", .num 1)])])
      1 1 = .timedOut 1 := by
  refine ⟨?_, ?_, by decide⟩
  · intro hi hbefore hready hlt
    have := waitAux_ready_at statusAt t i hi n 0 0 (t + 1)
      (by intro m hm; simpa using hbefore m hm) (by simpa using hready)
      (by simpa using hlt) (by omega)
    simpa using this
  · intro hi hall
    exact waitAux_timedOut_of_never statusAt t i hi hall (t + 1) 0 0 (by omega) (by omega)

/-- Witness for `c4_wait_for_ready`: a status that synchronizes on the
third poll yields `ready` at model time 10 with the default 5-second
interval. -/
theorem c4_wait_for_ready_witness :
    wait_for_dataset_ready
      (fun k => if k < 2 then .obj [("data", .obj [("synching_count", .num 1)])]
                else .obj [("data", .obj [("invalid_count", .num 0), ("synching_count", .num 0)])])
      300 5 = .ready 10 :=
  (c4_wait_for_ready
    (fun k => if k < 2 then .obj [("data", .obj [("synching_count", .num 1)])]
              else .obj [("data", .obj [("invalid_count", .num 0), ("synching_count", .num 0)])])
    300 5 2).1 (by decide)
    (by
      intro m hm
      interval_cases m <;> rfl)
    (by rfl) (by decide)

/-- C10: a status payload whose `data` object omits `invalid_count`,
`synching_count`, or both is treated as having zero counts — a `data`
object lacking both fields makes `wait_for_dataset_ready` return `true`
at the first poll — while a dict payload with no `data` key at all is
ignored and polling continues until the timeout. -/
theorem c10_missing_counts (p : Json) (d : List (String × Json)) (t i : Nat) :
    (p.getField "data" = some (.obj d) →
      (Json.obj d).getField "invalid_count" = none →
      (Json.obj d).getField "synching_count" = none →
      statusCheck p = some true ∧
      (0 < t → wait_for_dataset_ready (fun _ => p) t i = .ready 0)) ∧
    (∀ fs, p = .obj fs → p.getField "data" = none → 1 ≤ i →
      statusCheck p = some false ∧
      ∃ e, wait_for_dataset_ready (fun _ => p) t i = .timedOut e ∧ t ≤ e ∧ e < t + i) := by
  constructor
  · intro hp hinv hsync
    have hsc : statusCheck p = some true := by
      cases p with
      | obj fs => simp [statusCheck, hp, Json.getD, hinv, hsync, pyEqZero]
      | null => simp [Json.getField] at hp
      | bool b => simp [Json.getField] at hp
      | num n => simp [Json.getField] at hp
      | str s => simp [Json.getField] at hp
      | arr xs => simp [Json.getField] at hp
    refine ⟨hsc, ?_⟩
    intro ht
    show waitAux (fun _ => p) t i 0 0 (t + 1) = .ready 0
    simp only [waitAux]
    rw [if_pos ht, hsc]
  · intro fs hfs hdata hi
    have hsc : statusCheck p = some false := by
      subst hfs
      simp [statusCheck, hdata]
    exact ⟨hsc, waitAux_timedOut_of_never (fun _ => p) t i hi (fun _ => hsc) (t + 1) 0 0
      (by omega) (by omega)⟩

/-- Witness for `c10_missing_counts` on concrete payloads. -/
theorem c10_missing_counts_witness :
    statusCheck (.obj [("data", .obj [("cloud", .str "x")])]) = some true ∧
    wait_for_dataset_ready (fun _ => .obj [("data", .obj [("cloud", .str "x")])])
      300 5 = .ready 0 ∧
    statusCheck (.obj [("code", .num 0)]) = some false ∧
    wait_for_dataset_ready (fun _ => .obj [("code", .num 0)]) 1 1 = .timedOut 1 := by
  have h1 := (c10_missing_counts (.obj [("data", .obj [("cloud", .str "x")])])
    [("cloud", .str "x")] 300 5).1 (by rfl) (by rfl) (by rfl)
  have h2 := (c10_missing_counts (.obj [("code", .num 0)]) [] 1 1).2
    [("code", .num 0)] rfl (by rfl) (by decide)
  exact ⟨h1.1, h1.2 (by decide), h2.1, by decide⟩

theorem overviewLoop_attempts (ep : Nat → Except String Json) (d : String)
    (st : OverviewState) :
    ∀ (remaining attempt delay : Nat) (sleeps : List Nat),
      (overviewLoop ep d st remaining attempt delay sleeps).2.attempts ≤
        attempt + remaining := by
  intro remaining
  induction remaining with
  | zero =>
    intro attempt delay sleeps
    simp [overviewLoop]
  | succ r ih =>
    intro attempt delay sleeps
    simp only [overviewLoop]
    cases hep : ep attempt with
    | ok resp =>
      by_cases hd : resp.hasField "data"
      · simp [hd]
      · simp only [hd, Bool.false_eq_true, if_false]
        exact le_trans (ih (attempt + 1) (delay * 2) (sleeps ++ [delay])) (by omega)
    | error msg =>
      cases r with
      | zero => simp
      | succ r2 =>
        exact le_trans (ih (attempt + 1) (delay * 2) (sleeps ++ [delay])) (by omega)

/-- C5: the session-overview fetch is attempted at most 3 times, and
against an endpoint that fails twice (by raising or by returning a
response missing `data`) and then succeeds, it returns the successful
result after exactly 3 attempts with sleeps of 1s and 2s between
them. -/
theorem c5_overview_retry (st : OverviewState) (d : String)
    (ep : Nat → Except String Json) (j : Json) :
    (∀ ep2, (load_dataset_overview st d ep2).2.attempts ≤ 3) ∧
    (attemptFails ep 0 → attemptFails ep 1 → ep 2 = .ok j → j.hasField "data" = true →
      (load_dataset_overview st d ep).2 = ⟨3, [1, 2], .success⟩) := by
  constructor
  · intro ep2
    have h := overviewLoop_attempts ep2 d st 3 0 1 []
    unfold load_dataset_overview
    rcases hout : (overviewLoop ep2 d st 3 0 1 []).2.outcome with _ | _ | m <;>
      simp [hout] <;> omega
  · intro h0 h1 h2 hd
    have hloop : (overviewLoop ep d st 3 0 1 []).2 = ⟨3, [1, 2], .success⟩ := by
      rcases h0 with ⟨m0, he0⟩ | ⟨r0, he0, hd0⟩ <;>
        rcases h1 with ⟨m1, he1⟩ | ⟨r1, he1, hd1⟩ <;>
          simp [overviewLoop, he0, he1, h2, hd, *]
    simp [load_dataset_overview, hloop]

/-- Witness for `c5_overview_retry`: an endpoint raising twice then
succeeding. -/
theorem c5_overview_retry_witness :
    (load_dataset_overview emptyOverviewState "ds1"
        (fun n => if n < 2 then .error "down" else .ok (.obj [("data", .obj [])]))).2 =
      ⟨3, [1, 2], .success⟩ :=
  (c5_overview_retry emptyOverviewState "ds1"

    (fun n => if n < 2 then .error "down" else .ok (.obj [("data", .obj [])]))
    (.obj [("data", .obj [])])).2
    (Or.inl ⟨"down", rfl⟩) (Or.inl ⟨"down", rfl⟩) rfl rfl

/-- C6 counterexample: after exhausting retries the fallback dataset
name is the constant string `"Dataset"`, not the dataset's id — for
dataset id `"ds42"` the stored name is `"Dataset"`, which differs from
`"ds42"`. -/
theorem c6_counterexample :
    (load_dataset_overview emptyOverviewState "ds42"
        (fun _ => .error "boom")).1.dataset_name = some (.str "Dataset") ∧
    some (Json.str "Dataset") ≠ some (Json.str "ds42") := by
  constructor
  · rfl
  · simp

/-- C6 (amended): when the overview fetch exhausts all retries, the
operation does not fail the turn but degrades to a minimal default
state: the constant `"Dataset"` as the dataset name (when none is
already stored), an empty suggested-question list (when none is already
stored), and the current dataset id re-bound. -/
theorem c6_overview_degraded (st : OverviewState) (d : String)
    (ep : Nat → Except String Json)
    (h0 : attemptFails ep 0) (h1 : attemptFails ep 1) (h2 : attemptFails ep 2)
    (hname : pyTruthyOpt st.dataset_name = false)
    (hq : pyTruthyOpt st.exploration_questions = false) :
    (load_dataset_overview st d ep).1.dataset_name = some (.str "Dataset") ∧
    (load_dataset_overview st d ep).1.exploration_questions = some (.arr []) ∧
    (load_dataset_overview st d ep).1.current_dataset_id = some d ∧
    (load_dataset_overview st d ep).2.outcome ≠ .success := by
  rcases h0 with ⟨m0, he0⟩ | ⟨r0, he0, hd0⟩ <;>
    rcases h1 with ⟨m1, he1⟩ | ⟨r1, he1, hd1⟩ <;>
      rcases h2 with ⟨m2, he2⟩ | ⟨r2, he2, hd2⟩ <;>
        simp [load_dataset_overview, overviewLoop, he0, he1, he2, hname, hq, *]

/-- Witness for `c6_overview_degraded` on an always-raising endpoint. -/
theorem c6_overview_degraded_witness :
    (load_dataset_overview emptyOverviewState "ds9"
        (fun _ => .error "down")).1.dataset_name = some (.str "Dataset") ∧
    (load_dataset_overview emptyOverviewState "ds9"
        (fun _ => .error "down")).1.exploration_questions = some (.arr []) ∧
    (load_dataset_overview emptyOverviewState "ds9"
        (fun _ => .error "down")).1.current_dataset_id = some "ds9" ∧
    (load_dataset_overview emptyOverviewState "ds9"
        (fun _ => .error "down")).2.outcome ≠ .success :=
  c6_overview_degraded emptyOverviewState "ds9" (fun _ => .error "down")
    (Or.inl ⟨"down", rfl⟩) (Or.inl ⟨"down", rfl⟩) (Or.inl ⟨"down", rfl⟩) rfl rfl

/-- C7: constructing the chat interface with a new dataset id (or with
no stored session key) performs exactly one session creation, stores the
returned id and binds it to the new dataset id; a repeated construction
with the same dataset id and a stored session performs zero creations
(also immediately after a successful one); and before job creation a
missing/falsy session id triggers exactly one on-demand creation. -/
theorem c7_session_reconciliation (st : ChatState) (dsid : String)
    (r r2 : Except String Json) (body dj idj : Json)
    (hr : r = .ok body) (hdata : body.getField "data" = some dj)
    (hid : dj.getField "id" = some idj) :
    ((st.powerdrill_session_id.isNone ∨ st.powerdrill_dataset_id ≠ some dsid) →
      chat_interface_init st dsid r =
        ({ powerdrill_session_id := some (some idj),
           powerdrill_dataset_id := some dsid }, 1)) ∧
    (st.powerdrill_session_id.isNone = false → st.powerdrill_dataset_id = some dsid →
      chat_interface_init st dsid r2 = (st, 0)) ∧
    (chat_interface_init (chat_interface_init st dsid r).1 dsid r2).2 = 0 ∧
    (pyTruthyOpt (st.powerdrill_session_id.getD none) = false →
      ensure_session st r =
        ({ st with powerdrill_session_id := some (some idj) }, 1)) := by
  have hcreate : create_new_session st r = { st with powerdrill_session_id := some (some idj) } := by
    simp [create_new_session, hr, hdata, hid]
  have ha : (st.powerdrill_session_id.isNone ∨ st.powerdrill_dataset_id ≠ some dsid) →
      chat_interface_init st dsid r =
        ({ powerdrill_session_id := some (some idj),
           powerdrill_dataset_id := some dsid }, 1) := by
    intro hcond
    unfold chat_interface_init
    rw [if_pos hcond, hcreate]
  have hb : ∀ (st2 : ChatState) (rx : Except String Json),
      st2.powerdrill_session_id.isNone = false → st2.powerdrill_dataset_id = some dsid →
      chat_interface_init st2 dsid rx = (st2, 0) := by
    intro st2 rx h1 h2
    unfold chat_interface_init
    rw [if_neg]
    push_neg
    exact ⟨by simp [h1], h2⟩
  refine ⟨ha, fun h1 h2 => hb st r2 h1 h2, ?_, ?_⟩
  · by_cases hcond : st.powerdrill_session_id.isNone ∨ st.powerdrill_dataset_id ≠ some dsid
    · rw [ha hcond]
      rw [hb { powerdrill_session_id := some (some idj),
               powerdrill_dataset_id := some dsid } r2 rfl rfl]
    · have hcond2 := hcond
      push_neg at hcond2
      unfold chat_interface_init
      rw [if_neg hcond]
      exact congrArg Prod.snd (hb st r2 (by simp [hcond2.1]) hcond2.2)
  · intro hsid
    simp [ensure_session, hsid, create_new_session, hr, hdata, hid]

/-- Witness for `c7_session_reconciliation`: a fresh state creates one
session for dataset `"dsA"`; re-construction with the same dataset
creates none. -/
theorem c7_session_reconciliation_witness :
    chat_interface_init { powerdrill_session_id := none, powerdrill_dataset_id := none }
        "dsA" (.ok (.obj [("data", .obj [("id", .str "sess-1")])])) =
      ({ powerdrill_session_id := some (some (.str "sess-1")),
         powerdrill_dataset_id := some "dsA" }, 1) ∧
    chat_interface_init
        { powerdrill_session_id := some (some (.str "sess-1")),
          powerdrill_dataset_id := some "dsA" }
        "dsA" (.ok (.obj [("data", .obj [("id", .str "sess-2")])])) =
      ({ powerdrill_session_id := some (some (.str "sess-1")),
         powerdrill_dataset_id := some "dsA" }, 0) := by
  have h := c7_session_reconciliation
    { powerdrill_session_id := none, powerdrill_dataset_id := none } "dsA"
    (.ok (.obj [("data", .obj [("id", .str "sess-1")])]))
    (.ok (.obj [("data", .obj [("id", .str "sess-2")])]))
    (.obj [("data", .obj [("id", .str "sess-1")])])
    (.obj [("id", .str "sess-1")]) (.str "sess-1") rfl rfl rfl
  have h2 := c7_session_reconciliation
    { powerdrill_session_id := some (some (.str "sess-1")),
      powerdrill_dataset_id := some "dsA" } "dsA"
    (.ok (.obj [("data", .obj [("id", .str "sess-1")])]))
    (.ok (.obj [("data", .obj [("id", .str "sess-2")])]))
    (.obj [("data", .obj [("id", .str "sess-1")])])
    (.obj [("id", .str "sess-1")]) (.str "sess-1") rfl rfl rfl
  exact ⟨h.1 (Or.inl rfl), h2.2.1 rfl rfl⟩
